import Mathlib

/-!
Verification of the `MneeMart` marketplace ledger (Solidity contract in this
repository) against its natural-language specification.

The contract state is embedded shallowly: Solidity `mapping`s become total
functions out of `Nat` (addresses and product ids are modelled as naturals,
`address(0)` as `0`), `uint256` values become `Nat` (Solidity ^0.8 checked
arithmetic reverts on overflow, and a revert leaves the state unchanged, so
the success paths coincide with unbounded naturals on all reachable values),
and each external (state-mutating) function becomes a Lean function from the
pre-state and the call arguments to `Except MartError State`.  An `Except.error`
result models an EVM revert: the caller observes the pre-state unchanged.  The
outcome of an external ERC-20 token call is an input of the embedding (the
token is an external collaborator): a plain `Bool` for the pull-transfer in
`purchaseProduct`, and a predicate `State → Bool` for the outbound transfers in
the two withdrawal functions, so that the state at which the token (and any
reentrant observer) is invoked is explicit in the model.  Outbound token
transfers that succeed are recorded in an append-only `outTransfers` log of
(recipient, amount) pairs.
-/

namespace MneeMart

/-- Point update of a total function out of `Nat`; models a Solidity
`mapping` store. -/
def updFn {α : Type} (f : Nat → α) (k : Nat) (v : α) : Nat → α :=
  fun n => if n = k then v else f n

/-- `struct Product` of the contract. -/
structure Product where
  id : Nat
  seller : Nat
  cid : String
  price : Nat
  name : String
  description : String
  active : Bool
  salesCount : Nat
  deriving Repr, DecidableEq

/-- The all-zero value a Solidity `mapping(uint256 => Product)` returns for an
unassigned key. -/
def defaultProduct : Product :=
  { id := 0, seller := 0, cid := "", price := 0, name := "",
    description := "", active := false, salesCount := 0 }

/-- `struct Seller` of the contract. -/
structure Seller where
  productIds : List Nat
  totalSales : Nat
  balance : Nat
  totalEarnings : Nat
  deriving Repr, DecidableEq

/-- The all-zero value a Solidity `mapping(address => Seller)` returns for an
unassigned key. -/
def defaultSeller : Seller :=
  { productIds := [], totalSales := 0, balance := 0, totalEarnings := 0 }

/-- The full storage of the `MneeMart` contract.  `owner` is the transferable
OpenZeppelin `Ownable` role; `martOwner` is the contract's own `Martowner`
variable, set once in the constructor.  `outTransfers` logs successful
outbound `mneeToken.transfer` calls as (recipient, amount) pairs. -/
structure State where
  mneeToken : Nat
  owner : Nat
  martOwner : Nat
  platformFeePercentage : Nat
  productCounter : Nat
  platformBalance : Nat
  products : Nat → Product
  sellers : Nat → Seller
  hasPurchased : Nat → Nat → Bool
  productPurchasers : Nat → List Nat
  outTransfers : List (Nat × Nat)

/-- The revert reasons of the contract's `require` statements (plus the two
OpenZeppelin `Ownable` failures used by `onlyOwner`/`transferOwnership`). -/
inductive MartError where
  | emptyCid
  | invalidPrice
  | emptyName
  | productDoesNotExist
  | productNotActive
  | cannotBuyOwnProduct
  | alreadyPurchased
  | transferFailed
  | noBalanceToWithdraw
  | noPlatformFees
  | withdrawalFailed
  | notOwnerCaller
  | invalidNewOwner
  | productNotFound
  | notProductSeller
  | noStateChange
  deriving Repr, DecidableEq

/-- The state written by the constructor
`constructor(address _mneeToken, uint256 _platformFeePercentage)`: the
deployer becomes both the `Ownable` owner and `Martowner`, counters and
balances start at zero, every mapping is empty.  The constructor's own
`require`s (`_mneeToken != address(0)`, fee at most 2000) appear as side
conditions on `Reachable.init`. -/
def initState (deployer tokenAddr feeBps : Nat) : State :=
  { mneeToken := tokenAddr
    owner := deployer
    martOwner := deployer
    platformFeePercentage := feeBps
    productCounter := 0
    platformBalance := 0
    products := fun _ => defaultProduct
    sellers := fun _ => defaultSeller
    hasPurchased := fun _ _ => false
    productPurchasers := fun _ => []
    outTransfers := [] }

/-- `listProduct(string _cid, uint256 _price, string _name, string _description)`:
validates the inputs, increments `productCounter`, stores the new product under
the new id with `active = true` and `salesCount = 0`, appends the id to the
caller's product list, and returns the new id. -/
def listProduct (s : State) (sender : Nat) (c : String) (price : Nat)
    (nm ds : String) : Except MartError (State × Nat) :=
  if c.length = 0 then .error .emptyCid
  else if price = 0 then .error .invalidPrice
  else if nm.length = 0 then .error .emptyName
  else
    let newId := s.productCounter + 1
    let p : Product :=
      { id := newId, seller := sender, cid := c, price := price, name := nm,
        description := ds, active := true, salesCount := 0 }
    let sl := s.sellers sender
    .ok ({ s with
            productCounter := newId
            products := updFn s.products newId p
            sellers := updFn s.sellers sender
              { sl with productIds := sl.productIds ++ [newId] } },
         newId)

/-- `purchaseProduct(uint256 _productId)` called by `sender`.  `tOk` is the
result of the external `mneeToken.transferFrom(sender, address(this), price)`
call; the contract performs it before any of its own state writes, so a
failed pull-transfer reverts the whole call. -/
def purchaseProduct (s : State) (sender pid : Nat) (tOk : Bool) :
    Except MartError State :=
  let product := s.products pid
  if product.id = 0 then .error .productDoesNotExist
  else if product.active = false then .error .productNotActive
  else if product.seller = sender then .error .cannotBuyOwnProduct
  else if s.hasPurchased sender pid = true then .error .alreadyPurchased
  else
    let platformFee := product.price * s.platformFeePercentage / 10000
    let sellerAmount := product.price - platformFee
    if tOk = false then .error .transferFailed
    else
      let sl := s.sellers product.seller
      .ok { s with
              sellers := updFn s.sellers product.seller
                { sl with
                    balance := sl.balance + sellerAmount
                    totalSales := sl.totalSales + 1
                    totalEarnings := sl.totalEarnings + sellerAmount }
              platformBalance := s.platformBalance + platformFee
              hasPurchased := fun a p =>
                if a = sender ∧ p = pid then true else s.hasPurchased a p
              productPurchasers := updFn s.productPurchasers pid
                (s.productPurchasers pid ++ [sender])
              products := updFn s.products pid
                { product with salesCount := product.salesCount + 1 } }

/-- `withdrawSellerBalance()` called by `sender`.  The balance is zeroed
before `mneeToken.transfer(msg.sender, amount)` is issued, so the token call
`tOk` observes the already-zeroed intermediate state; a `false` outcome
reverts the whole call. -/
def withdrawSellerBalance (s : State) (sender : Nat) (tOk : State → Bool) :
    Except MartError State :=
  let amount := (s.sellers sender).balance
  if amount = 0 then .error .noBalanceToWithdraw
  else
    let sl := s.sellers sender
    let s1 := { s with sellers := updFn s.sellers sender { sl with balance := 0 } }
    if tOk s1 = true then
      .ok { s1 with outTransfers := s1.outTransfers ++ [(sender, amount)] }
    else .error .withdrawalFailed

/-- `withdrawPlatformFees()` called by `sender`.  Guarded by the OpenZeppelin
`onlyOwner` modifier (the `Ownable` role), not by the contract's own
`onlyMartOwner`; the recipient of the outbound transfer is the fixed
`Martowner` address.  `platformBalance` is zeroed before the token call. -/
def withdrawPlatformFees (s : State) (sender : Nat) (tOk : State → Bool) :
    Except MartError State :=
  if sender = s.owner then
    let amount := s.platformBalance
    if amount = 0 then .error .noPlatformFees
    else
      let s1 := { s with platformBalance := 0 }
      if tOk s1 = true then
        .ok { s1 with outTransfers := s1.outTransfers ++ [(s.martOwner, amount)] }
      else .error .withdrawalFailed
  else .error .notOwnerCaller

/-- Models `transferOwnership(address newOwner)` of the imported OpenZeppelin
`Ownable` base contract: only the current owner may call it, the zero address
is rejected, and on success the `owner` role (and only it) changes. -/
def transferOwnership (s : State) (sender newOwner : Nat) :
    Except MartError State :=
  if sender = s.owner then
    if newOwner = 0 then .error .invalidNewOwner
    else .ok { s with owner := newOwner }
  else .error .notOwnerCaller

/-- EVM revert semantics: the post-state of a call is the returned state on
success and the unchanged pre-state on revert. -/
def resultState (s : State) : Except MartError State → State
  | .ok s' => s'
  | .error _ => s

/-- `true` exactly when the call reverted. -/
def isErr {α : Type} : Except MartError α → Bool
  | .error _ => true
  | .ok _ => false

/-- One successful externally-invoked transition of the deployed contract:
any of the four external functions of `MneeMart`, or the inherited
`Ownable.transferOwnership`.  Reverted calls leave the state unchanged and so
contribute nothing to reachability. -/
inductive Step : State → State → Prop
  | listStep {s s' : State} (sender : Nat) (c : String) (price : Nat)
      (nm ds : String) (newId : Nat)
      (h : listProduct s sender c price nm ds = .ok (s', newId)) : Step s s'
  | purchaseStep {s s' : State} (sender pid : Nat) (tOk : Bool)
      (h : purchaseProduct s sender pid tOk = .ok s') : Step s s'
  | withdrawSellerStep {s s' : State} (sender : Nat) (tOk : State → Bool)
      (h : withdrawSellerBalance s sender tOk = .ok s') : Step s s'
  | withdrawFeesStep {s s' : State} (sender : Nat) (tOk : State → Bool)
      (h : withdrawPlatformFees s sender tOk = .ok s') : Step s s'
  | ownershipStep {s s' : State} (sender newOwner : Nat)
      (h : transferOwnership s sender newOwner = .ok s') : Step s s'

/-- The states a deployed `MneeMart` contract can actually be in: a
constructor state (with the constructor's `require`s satisfied) followed by
any number of successful external calls. -/
inductive Reachable : State → Prop
  | init (deployer tokenAddr feeBps : Nat) (htok : tokenAddr ≠ 0)
      (hfee : feeBps ≤ 2000) : Reachable (initState deployer tokenAddr feeBps)
  | step {s s' : State} (hr : Reachable s) (hs : Step s s') : Reachable s'

/-- Modelled from the spec: the product activation toggle — `setActive` of
spec section 4.1, surfaced in the web client's ABI as `activateProduct` /
`deactivateProduct` — belongs to the richer contract variant whose Solidity
implementation is not among this repository's sources; only its ABI
declaration is.  Following the spec's words: it fails with `ProductNotFound`
if the id is unused, `NotOwner` if the caller is not the stored seller, and
`NoStateChange` if the product is already in the requested state; otherwise
it is a pure flip of the `active` flag with no balance effects. -/
def setActive (s : State) (pid sender : Nat) (active : Bool) :
    Except MartError State :=
  let product := s.products pid
  if product.id = 0 then .error .productNotFound
  else if product.seller ≠ sender then .error .notProductSeller
  else if product.active = active then .error .noStateChange
  else .ok { s with products := updFn s.products pid { product with active := active } }

/-- The inductive invariant of the contract state used below: the fee rate is
within the constructor's bound, ids above `productCounter` are untouched (the
all-zero sentinel), every per-product purchaser list is duplicate-free, its
length tracks that product's `salesCount`, and every listed purchaser has the
corresponding purchase fact set. -/
structure Inv (s : State) : Prop where
  fee_le : s.platformFeePercentage ≤ 2000
  fresh : ∀ pid, s.productCounter < pid →
    s.products pid = defaultProduct ∧ s.productPurchasers pid = []
  nodup : ∀ pid, (s.productPurchasers pid).Nodup
  len_eq : ∀ pid, (s.productPurchasers pid).length = (s.products pid).salesCount
  mem_purchased : ∀ pid a, a ∈ s.productPurchasers pid →
    s.hasPurchased a pid = true

/-- Extraction of the post-state of a `listProduct` call under EVM revert
semantics (the returned id is dropped). -/
def listResultState (s : State) : Except MartError (State × Nat) → State
  | .ok p => p.1
  | .error _ => s

/-- Concrete scenario used by the witnesses below: deployed by account 1
with token address 7 and a 10% (1000 bps) fee rate. -/
def exS0 : State := initState 1 7 1000

/-- Account 2 lists a product (id 1, price 1000). -/
def exS1 : State := listResultState exS0 (listProduct exS0 2 "cidA" 1000 "prodA" "descA")

/-- Account 3 buys product 1: fee 100, seller credit 900. -/
def exS2 : State := resultState exS1 (purchaseProduct exS1 3 1 true)

/-- Seller 2 withdraws the 900-unit balance. -/
def exS3 : State := resultState exS2 (withdrawSellerBalance exS2 2 (fun _ => true))

/-- The deployer hands the `Ownable` role to account 4. -/
def exO3 : State := resultState exS2 (transferOwnership exS2 1 4)

/-- The new owner (account 4) withdraws the platform fees. -/
def exO4 : State := resultState exO3 (withdrawPlatformFees exO3 4 (fun _ => true))

/-- Seller 2 deactivates product 1 (spec-modelled `setActive`). -/
def exS2d : State := resultState exS2 (setActive exS2 1 2 false)

/-- Zero-fee scenario: deployed with a 0 bps fee rate, product of price 5
listed by account 2. -/
def zfS0 : State := initState 1 7 0

/-- The zero-fee deployment after account 2 lists a product of price 5. -/
def zfS1 : State := listResultState zfS0 (listProduct zfS0 2 "c" 5 "n" "")

/-- The zero-fee deployment after account 3 buys product 1: the computed
fee is `5 * 0 / 10000 = 0`. -/
def zfS2 : State := resultState zfS1 (purchaseProduct zfS1 3 1 true)

@[simp]
theorem updFn_same {α : Type} (f : Nat → α) (k : Nat) (v : α) :
    updFn f k v k = v := by
  simp [updFn]

theorem updFn_ne {α : Type} (f : Nat → α) (k : Nat) (v : α) {n : Nat}
    (h : n ≠ k) : updFn f k v n = f n := by
  simp [updFn, h]

@[simp]
theorem resultState_ok (s s' : State) : resultState s (.ok s') = s' := rfl

@[simp]
theorem resultState_error (s : State) (e : MartError) :
    resultState s (.error e) = s := rfl


/-- Success characterization of `listProduct`: all three input validations
passed, and the post-state and returned id are uniquely determined. -/
theorem listProduct_ok {s : State} {sender : Nat} {c : String} {price : Nat}
    {nm ds : String} {s' : State} {newId : Nat}
    (h : listProduct s sender c price nm ds = .ok (s', newId)) :
    c.length ≠ 0 ∧ price ≠ 0 ∧ nm.length ≠ 0 ∧
    newId = s.productCounter + 1 ∧
    s' = { s with
            productCounter := s.productCounter + 1
            products := updFn s.products (s.productCounter + 1)
              { id := s.productCounter + 1, seller := sender, cid := c,
                price := price, name := nm, description := ds,
                active := true, salesCount := 0 }
            sellers := updFn s.sellers sender
              { s.sellers sender with
                  productIds := (s.sellers sender).productIds
                    ++ [s.productCounter + 1] } } := by
  unfold listProduct at h
  split at h
  · simp at h
  · split at h
    · simp at h
    · split at h
      · simp at h
      · simp only [Except.ok.injEq, Prod.mk.injEq] at h
        refine ⟨by assumption, by assumption, by assumption, h.2.symm, h.1.symm⟩

/-- Success characterization of `purchaseProduct`: all four `require`s and the
pull-transfer succeeded, and the post-state is uniquely determined. -/
theorem purchaseProduct_ok {s : State} {sender pid : Nat} {tOk : Bool}
    {s' : State} (h : purchaseProduct s sender pid tOk = .ok s') :
    (s.products pid).id ≠ 0 ∧ (s.products pid).active = true ∧
    (s.products pid).seller ≠ sender ∧ s.hasPurchased sender pid = false ∧
    tOk = true ∧
    s' = { s with
            sellers := updFn s.sellers (s.products pid).seller
              { s.sellers (s.products pid).seller with
                  balance := (s.sellers (s.products pid).seller).balance
                    + ((s.products pid).price
                        - (s.products pid).price * s.platformFeePercentage / 10000)
                  totalSales := (s.sellers (s.products pid).seller).totalSales + 1
                  totalEarnings := (s.sellers (s.products pid).seller).totalEarnings
                    + ((s.products pid).price
                        - (s.products pid).price * s.platformFeePercentage / 10000) }
            platformBalance := s.platformBalance
              + (s.products pid).price * s.platformFeePercentage / 10000
            hasPurchased := fun a p =>
              if a = sender ∧ p = pid then true else s.hasPurchased a p
            productPurchasers := updFn s.productPurchasers pid
              (s.productPurchasers pid ++ [sender])
            products := updFn s.products pid
              { s.products pid with
                  salesCount := (s.products pid).salesCount + 1 } } := by
  simp only [purchaseProduct] at h
  by_cases h1 : (s.products pid).id = 0
  · simp [h1] at h
  by_cases h2 : (s.products pid).active = false
  · simp [h1, h2] at h
  by_cases h3 : (s.products pid).seller = sender
  · simp [h1, h2, h3] at h
  by_cases h4 : s.hasPurchased sender pid = true
  · simp [h1, h2, h3, h4] at h
  by_cases h5 : tOk = false
  · simp [h1, h2, h3, h4, h5] at h
  rw [if_neg h1, if_neg h2, if_neg h3, if_neg h4, if_neg h5] at h
  injection h with h
  exact ⟨h1, by simpa using h2, h3, by simpa using h4, by simpa using h5, h.symm⟩

/-- Success characterization of `withdrawSellerBalance`: the balance was
nonzero, the token transfer (observing the zeroed intermediate state)
succeeded, and the post-state is uniquely determined. -/
theorem withdrawSellerBalance_ok {s : State} {sender : Nat}
    {tOk : State → Bool} {s' : State}
    (h : withdrawSellerBalance s sender tOk = .ok s') :
    (s.sellers sender).balance ≠ 0 ∧
    tOk { s with sellers := updFn s.sellers sender { s.sellers sender with balance := 0 } } = true ∧
    s' = { s with sellers := updFn s.sellers sender { s.sellers sender with balance := 0 }, outTransfers := s.outTransfers ++ [(sender, (s.sellers sender).balance)] } := by
  simp only [withdrawSellerBalance] at h
  by_cases h1 : (s.sellers sender).balance = 0
  · simp [h1] at h
  by_cases h2 : tOk { s with sellers := updFn s.sellers sender { s.sellers sender with balance := 0 } } = true
  · rw [if_neg h1, if_pos h2] at h
    injection h with h
    exact ⟨h1, h2, h.symm⟩
  · rw [if_neg h1, if_neg h2] at h
    simp at h

/-- Success characterization of `withdrawPlatformFees`: the caller is the
`Ownable` owner, the accumulated fees were nonzero, the token transfer to
`Martowner` succeeded, and the post-state is uniquely determined. -/
theorem withdrawPlatformFees_ok {s : State} {sender : Nat}
    {tOk : State → Bool} {s' : State}
    (h : withdrawPlatformFees s sender tOk = .ok s') :
    sender = s.owner ∧ s.platformBalance ≠ 0 ∧
    tOk ({ s with platformBalance := 0 }) = true ∧
    s' = { s with
            platformBalance := 0
            outTransfers := s.outTransfers
              ++ [(s.martOwner, s.platformBalance)] } := by
  simp only [withdrawPlatformFees] at h
  by_cases h1 : sender = s.owner
  · by_cases h2 : s.platformBalance = 0
    · simp [h1, h2] at h
    · by_cases h3 : tOk ({ s with platformBalance := 0 }) = true
      · simp only [h1, h2, h3, if_neg, if_pos, if_true, if_false,
          Except.ok.injEq] at h
        exact ⟨h1, h2, h3, h.symm⟩
      · simp [h1, h2, h3] at h
  · simp [h1] at h

/-- Success characterization of `transferOwnership`. -/
theorem transferOwnership_ok {s : State} {sender newOwner : Nat} {s' : State}
    (h : transferOwnership s sender newOwner = .ok s') :
    sender = s.owner ∧ newOwner ≠ 0 ∧ s' = { s with owner := newOwner } := by
  unfold transferOwnership at h
  split at h
  · split at h
    · simp at h
    · simp only [Except.ok.injEq] at h
      exact ⟨by assumption, by assumption, h.symm⟩
  · simp at h

theorem inv_init (deployer tokenAddr feeBps : Nat) (hfee : feeBps ≤ 2000) :
    Inv (initState deployer tokenAddr feeBps) := by
  refine ⟨hfee, ?_, ?_, ?_, ?_⟩ <;> intro pid <;>
    simp [initState, defaultProduct]

theorem inv_step {s s' : State} (inv : Inv s) (hs : Step s s') : Inv s' := by
  cases hs with
  | listStep sender c price nm ds newId h =>
    obtain ⟨-, -, -, -, hs'⟩ := listProduct_ok h
    subst hs'
    refine ⟨inv.fee_le, ?_, inv.nodup, ?_, inv.mem_purchased⟩
    · intro pid hpid
      dsimp only at hpid ⊢
      have hne : pid ≠ s.productCounter + 1 := by omega
      have := inv.fresh pid (by omega)
      simpa [updFn_ne _ _ _ hne] using this
    · intro pid
      dsimp only
      by_cases hpid : pid = s.productCounter + 1
      · subst hpid
        have := (inv.fresh (s.productCounter + 1) (by omega)).2
        simp [this]
      · simpa [updFn_ne _ _ _ hpid] using inv.len_eq pid
  | purchaseStep sender pid tOk h =>
    obtain ⟨hid, -, -, hnew, -, hs'⟩ := purchaseProduct_ok h
    have hle : pid ≤ s.productCounter := by
      by_contra hgt
      exact hid ((inv.fresh pid (by omega)).1 ▸ rfl)
    have hnotmem : sender ∉ s.productPurchasers pid := fun hmem =>
      by simpa [hnew] using inv.mem_purchased pid sender hmem
    subst hs'
    refine ⟨inv.fee_le, ?_, ?_, ?_, ?_⟩
    · intro q hq
      dsimp only at hq ⊢
      have hne : q ≠ pid := by omega
      simpa [updFn_ne _ _ _ hne] using inv.fresh q hq
    · intro q
      dsimp only
      by_cases hq : q = pid
      · subst hq
        simp only [updFn_same]
        exact List.Nodup.append (inv.nodup q) (List.nodup_singleton sender)
          (by simpa [List.disjoint_singleton] using hnotmem)
      · simpa [updFn_ne _ _ _ hq] using inv.nodup q
    · intro q
      dsimp only
      by_cases hq : q = pid
      · subst hq
        simp [inv.len_eq q]
      · simpa [updFn_ne _ _ _ hq] using inv.len_eq q
    · intro q a hmem
      dsimp only at hmem ⊢
      by_cases hq : q = pid
      · subst hq
        rw [updFn_same] at hmem
        rw [List.mem_append, List.mem_singleton] at hmem
        rcases hmem with hmem | rfl
        · have := inv.mem_purchased q a hmem
          by_cases ha : a = sender ∧ q = q
          · simp [ha]
          · simp [ha, this]
        · simp
      · rw [updFn_ne _ _ _ hq] at hmem
        have := inv.mem_purchased q a hmem
        have hcond : ¬(a = sender ∧ q = pid) := fun hc => hq hc.2
        simp [hcond, this]
  | withdrawSellerStep sender tOk h =>
    obtain ⟨-, -, hs'⟩ := withdrawSellerBalance_ok h
    subst hs'
    exact ⟨inv.fee_le, inv.fresh, inv.nodup, inv.len_eq, inv.mem_purchased⟩
  | withdrawFeesStep sender tOk h =>
    obtain ⟨-, -, -, hs'⟩ := withdrawPlatformFees_ok h
    subst hs'
    exact ⟨inv.fee_le, inv.fresh, inv.nodup, inv.len_eq, inv.mem_purchased⟩
  | ownershipStep sender newOwner h =>
    obtain ⟨-, -, hs'⟩ := transferOwnership_ok h
    subst hs'
    exact ⟨inv.fee_le, inv.fresh, inv.nodup, inv.len_eq, inv.mem_purchased⟩

theorem reachable_inv {s : State} (hr : Reachable s) : Inv s := by
  induction hr with
  | init deployer tokenAddr feeBps htok hfee => exact inv_init _ _ _ hfee
  | step hr hs ih => exact inv_step ih hs

theorem fee_le_price (price rate : Nat) (h : rate ≤ 2000) :
    price * rate / 10000 ≤ price := by
  have h1 : price * rate ≤ price * 10000 :=
    Nat.mul_le_mul_left price (le_trans h (by norm_num))
  have h2 : price * rate / 10000 ≤ price * 10000 / 10000 :=
    Nat.div_le_div_right h1
  have h3 : price * 10000 / 10000 = price := by omega
  exact le_trans h2 (le_of_eq h3)

/-- C1: on every successful purchase of a product with price `p` under fee
rate `r` (in a reachable contract state, so `r ≤ 2000`), the platform
collects exactly `floor(p * r / 10000)`, the seller is credited exactly
`p` minus that fee, and the seller credit plus the fee reassemble `p`
exactly — no token unit is lost or created. -/
theorem purchase_fee_split (s : State) (hs : Reachable s) (sender pid : Nat)
    (tOk : Bool) (s' : State)
    (h : purchaseProduct s sender pid tOk = .ok s') :
    s'.platformBalance
        = s.platformBalance
            + (s.products pid).price * s.platformFeePercentage / 10000 ∧
    (s'.sellers (s.products pid).seller).balance
        = (s.sellers (s.products pid).seller).balance
            + ((s.products pid).price
                - (s.products pid).price * s.platformFeePercentage / 10000) ∧
    ((s.products pid).price
        - (s.products pid).price * s.platformFeePercentage / 10000)
        + (s.products pid).price * s.platformFeePercentage / 10000
      = (s.products pid).price := by
  obtain ⟨-, -, -, -, -, hs'⟩ := purchaseProduct_ok h
  subst hs'
  refine ⟨rfl, ?_, ?_⟩
  · dsimp only
    rw [updFn_same]
  · exact Nat.sub_add_cancel (fee_le_price _ _ (reachable_inv hs).fee_le)

/-- C2: in every state and for every caller and product id, if the
pull-transfer of the price from the buyer fails, `purchaseProduct` reverts
and the resulting ledger state is exactly the pre-call state — seller
balances, treasury fees, purchase facts, purchaser history and sales
counters included. -/
theorem purchase_payment_failure_atomic (s : State) (sender pid : Nat) :
    isErr (purchaseProduct s sender pid false) = true ∧
    resultState s (purchaseProduct s sender pid false) = s := by
  cases hE : purchaseProduct s sender pid false with
  | ok s' =>
    have := (purchaseProduct_ok hE).2.2.2.2.1
    simp at this
  | error e => simp [isErr]

/-- C3: after one successful purchase of product `pid` by `sender`, any
second purchase attempt for the same (buyer, product) pair reverts with the
already-owned error, and the state after the failed second call equals the
state after the first successful call. -/
theorem repurchase_denied (s : State) (sender pid : Nat) (tOk : Bool)
    (s' : State) (h : purchaseProduct s sender pid tOk = .ok s')
    (tOk2 : Bool) :
    purchaseProduct s' sender pid tOk2 = .error .alreadyPurchased ∧
    resultState s' (purchaseProduct s' sender pid tOk2) = s' := by
  obtain ⟨hid, hact, hsel, -, -, hs'⟩ := purchaseProduct_ok h
  subst hs'
  have key :
      purchaseProduct
        { s with
            sellers := updFn s.sellers (s.products pid).seller
              { s.sellers (s.products pid).seller with
                  balance := (s.sellers (s.products pid).seller).balance
                    + ((s.products pid).price
                        - (s.products pid).price * s.platformFeePercentage / 10000)
                  totalSales := (s.sellers (s.products pid).seller).totalSales + 1
                  totalEarnings := (s.sellers (s.products pid).seller).totalEarnings
                    + ((s.products pid).price
                        - (s.products pid).price * s.platformFeePercentage / 10000) }
            platformBalance := s.platformBalance
              + (s.products pid).price * s.platformFeePercentage / 10000
            hasPurchased := fun a p =>
              if a = sender ∧ p = pid then true else s.hasPurchased a p
            productPurchasers := updFn s.productPurchasers pid
              (s.productPurchasers pid ++ [sender])
            products := updFn s.products pid
              { s.products pid with
                  salesCount := (s.products pid).salesCount + 1 } }
        sender pid tOk2 = .error .alreadyPurchased := by
    simp [purchaseProduct, updFn_same, hid, hact, hsel]
  exact ⟨key, by rw [key]; simp⟩

theorem hasPurchased_mono {s s' : State} (hs : Step s s') (a pid : Nat)
    (h : s.hasPurchased a pid = true) : s'.hasPurchased a pid = true := by
  cases hs with
  | listStep sender c price nm ds newId hE =>
    obtain ⟨-, -, -, -, hs'⟩ := listProduct_ok hE
    subst hs'; exact h
  | purchaseStep sender pid2 tOk hE =>
    obtain ⟨-, -, -, -, -, hs'⟩ := purchaseProduct_ok hE
    subst hs'
    dsimp only
    by_cases hc : a = sender ∧ pid = pid2 <;> simp [hc, h]
  | withdrawSellerStep sender tOk hE =>
    obtain ⟨-, -, hs'⟩ := withdrawSellerBalance_ok hE
    subst hs'; exact h
  | withdrawFeesStep sender tOk hE =>
    obtain ⟨-, -, -, hs'⟩ := withdrawPlatformFees_ok hE
    subst hs'; exact h
  | ownershipStep sender newOwner hE =>
    obtain ⟨-, -, hs'⟩ := transferOwnership_ok hE
    subst hs'; exact h

/-- C4: the purchase-verification predicate is a pure total read of the
`hasPurchased` mapping (in this embedding a total function, so the query
always succeeds).  It is `false` everywhere in the constructor state; once
`true` it stays `true` across every sequence of successful contract
operations; and the only transition that turns it from `false` to `true`
for a pair (a, pid) is a successful purchase of product `pid` by `a`
itself — so it is `false` for every pair with no prior successful
purchase and `true` permanently afterwards. -/
theorem hasPurchased_lifecycle :
    (∀ deployer tokenAddr feeBps a pid,
        (initState deployer tokenAddr feeBps).hasPurchased a pid = false) ∧
    (∀ s s', Relation.ReflTransGen Step s s' → ∀ a pid,
        s.hasPurchased a pid = true → s'.hasPurchased a pid = true) ∧
    (∀ s s', Step s s' → ∀ a pid,
        s.hasPurchased a pid = false → s'.hasPurchased a pid = true →
        ∃ tOk, purchaseProduct s a pid tOk = .ok s') := by
  refine ⟨fun _ _ _ _ _ => rfl, ?_, ?_⟩
  · intro s s' hsteps a pid h
    induction hsteps with
    | refl => exact h
    | tail hab hbc ih => exact hasPurchased_mono hbc a pid ih
  · intro s s' hs a pid h0 h1
    cases hs with
    | listStep sender c price nm ds newId hE =>
      obtain ⟨-, -, -, -, hs'⟩ := listProduct_ok hE
      subst hs'
      dsimp only at h1
      simp [h0] at h1
    | purchaseStep sender pid2 tOk hE =>
      obtain ⟨-, -, -, -, -, hs'⟩ := purchaseProduct_ok hE
      subst hs'
      dsimp only at h1
      by_cases hc : a = sender ∧ pid = pid2
      · obtain ⟨rfl, rfl⟩ := hc
        exact ⟨tOk, hE⟩
      · rw [if_neg hc] at h1
        simp [h0] at h1
    | withdrawSellerStep sender tOk hE =>
      obtain ⟨-, -, hs'⟩ := withdrawSellerBalance_ok hE
      subst hs'
      dsimp only at h1
      simp [h0] at h1
    | withdrawFeesStep sender tOk hE =>
      obtain ⟨-, -, -, hs'⟩ := withdrawPlatformFees_ok hE
      subst hs'
      dsimp only at h1
      simp [h0] at h1
    | ownershipStep sender newOwner hE =>
      obtain ⟨-, -, hs'⟩ := transferOwnership_ok hE
      subst hs'
      dsimp only at h1
      simp [h0] at h1

/-- C5: seller withdrawal fails with the nothing-to-withdraw error when the
caller's withdrawable balance is zero; the result of the call depends on
the token-transfer outcome only through states in which the caller's
balance is already zero (the balance is zeroed before the outbound transfer
is issued); a failed outbound transfer makes the whole call revert with the
balance exactly as before; and after a successful withdrawal an immediately
repeated withdrawal fails. -/
theorem withdrawSeller_spec :
    (∀ s sender tOk, (s.sellers sender).balance = 0 →
        withdrawSellerBalance s sender tOk = .error .noBalanceToWithdraw) ∧
    (∀ s sender f g,
        (∀ t, (t.sellers sender).balance = 0 → f t = g t) →
        withdrawSellerBalance s sender f = withdrawSellerBalance s sender g) ∧
    (∀ s sender f, (∀ t, f t = false) →
        isErr (withdrawSellerBalance s sender f) = true ∧
        resultState s (withdrawSellerBalance s sender f) = s) ∧
    (∀ s sender f s' g, withdrawSellerBalance s sender f = .ok s' →
        (s'.sellers sender).balance = 0 ∧
        withdrawSellerBalance s' sender g = .error .noBalanceToWithdraw) := by
  refine ⟨?_, ?_, ?_, ?_⟩
  · intro s sender tOk h
    simp [withdrawSellerBalance, h]
  · intro s sender f g hfg
    by_cases h1 : (s.sellers sender).balance = 0
    · simp [withdrawSellerBalance, h1]
    · have hz : ((({ s with sellers := updFn s.sellers sender { s.sellers sender with balance := 0 } } : State)).sellers sender).balance = 0 := by
        dsimp only
        rw [updFn_same]
      simp only [withdrawSellerBalance]
      rw [hfg _ hz]
  · intro s sender f hf
    by_cases h1 : (s.sellers sender).balance = 0
    · simp [withdrawSellerBalance, h1, isErr]
    · simp [withdrawSellerBalance, h1, hf, isErr]
  · intro s sender f s' g h
    obtain ⟨h1, h2, hs'⟩ := withdrawSellerBalance_ok h
    subst hs'
    constructor
    · dsimp only
      rw [updFn_same]
    · simp [withdrawSellerBalance, updFn_same]

/-- C6 (amended): the treasury scalar `platformBalance` (the spec's
`accumulatedFees`) never decreases on a successful purchase — it grows by
the computed fee `floor(price * rate / 10000)`, which can be zero — and the
only transition that decreases it is a successful treasury withdrawal,
which sets it to exactly zero. -/
theorem platformFees_monotonic :
    (∀ s sender pid tOk s', purchaseProduct s sender pid tOk = .ok s' →
        s'.platformBalance = s.platformBalance
            + (s.products pid).price * s.platformFeePercentage / 10000 ∧
        s.platformBalance ≤ s'.platformBalance) ∧
    (∀ s s', Step s s' → s'.platformBalance < s.platformBalance →
        s'.platformBalance = 0 ∧
        ∃ sender f, withdrawPlatformFees s sender f = .ok s') := by
  constructor
  · intro s sender pid tOk s' h
    obtain ⟨-, -, -, -, -, hs'⟩ := purchaseProduct_ok h
    subst hs'
    exact ⟨rfl, Nat.le_add_right _ _⟩
  · intro s s' hs hlt
    cases hs with
    | listStep sender c price nm ds newId hE =>
      obtain ⟨-, -, -, -, hs'⟩ := listProduct_ok hE
      subst hs'
      exact absurd hlt (lt_irrefl _)
    | purchaseStep sender pid tOk hE =>
      obtain ⟨-, -, -, -, -, hs'⟩ := purchaseProduct_ok hE
      subst hs'
      dsimp only at hlt
      exact absurd hlt (by omega)
    | withdrawSellerStep sender tOk hE =>
      obtain ⟨-, -, hs'⟩ := withdrawSellerBalance_ok hE
      subst hs'
      exact absurd hlt (lt_irrefl _)
    | withdrawFeesStep sender tOk hE =>
      obtain ⟨-, -, -, hs'⟩ := withdrawPlatformFees_ok hE
      subst hs'
      exact ⟨rfl, sender, tOk, hE⟩
    | ownershipStep sender newOwner hE =>
      obtain ⟨-, -, hs'⟩ := transferOwnership_ok hE
      subst hs'
      exact absurd hlt (lt_irrefl _)

/-- C7: listing fails for an empty content pointer, a zero price, or an
empty display name; on success it assigns the next sequential id (starting
at 1: the constructor state has `productCounter = 0` and the id slot being
assigned was still the all-zero does-not-exist sentinel, so ids are never
reused), stores the product with `active = true` and `salesCount = 0`,
appends the id to the seller's product list, and returns the new id. -/
theorem listProduct_spec :
    (∀ s sender c price nm ds, c.length = 0 →
        listProduct s sender c price nm ds = .error .emptyCid) ∧
    (∀ s sender c nm ds, c.length ≠ 0 →
        listProduct s sender c 0 nm ds = .error .invalidPrice) ∧
    (∀ s sender c price nm ds, c.length ≠ 0 → price ≠ 0 → nm.length = 0 →
        listProduct s sender c price nm ds = .error .emptyName) ∧
    (∀ deployer tokenAddr feeBps,
        (initState deployer tokenAddr feeBps).productCounter = 0) ∧
    (∀ s sender c price nm ds s' newId, Reachable s →
        listProduct s sender c price nm ds = .ok (s', newId) →
        newId = s.productCounter + 1 ∧
        s'.productCounter = newId ∧
        s.products newId = defaultProduct ∧
        s'.products newId =
          { id := newId, seller := sender, cid := c, price := price,
            name := nm, description := ds, active := true, salesCount := 0 } ∧
        (s'.sellers sender).productIds
          = (s.sellers sender).productIds ++ [newId]) := by
  refine ⟨?_, ?_, ?_, fun _ _ _ => rfl, ?_⟩
  · intro s sender c price nm ds h
    simp [listProduct, h]
  · intro s sender c nm ds h
    simp [listProduct, h]
  · intro s sender c price nm ds h1 h2 h3
    simp [listProduct, h1, h2, h3]
  · intro s sender c price nm ds s' newId hr h
    obtain ⟨-, -, -, hid, hs'⟩ := listProduct_ok h
    subst hid
    subst hs'
    refine ⟨rfl, rfl, ?_, ?_, ?_⟩
    · exact ((reachable_inv hr).fresh _ (by omega)).1
    · dsimp only
      rw [updFn_same]
    · dsimp only
      rw [updFn_same]

/-- C8: `setActive` fails with the product-not-found error when the id is
unused (the stored id is the 0 sentinel), with the not-owner error when the
caller is not the stored seller, and with the no-state-change error when
the product is already in the requested active state; a successful call
produces exactly the pre-state with that one product's `active` flag
replaced — no balance, counter, purchase-fact or history effects. -/
theorem setActive_spec :
    (∀ s pid sender b, (s.products pid).id = 0 →
        setActive s pid sender b = .error .productNotFound) ∧
    (∀ s pid sender b, (s.products pid).id ≠ 0 →
        (s.products pid).seller ≠ sender →
        setActive s pid sender b = .error .notProductSeller) ∧
    (∀ s pid sender b, (s.products pid).id ≠ 0 →
        (s.products pid).seller = sender → (s.products pid).active = b →
        setActive s pid sender b = .error .noStateChange) ∧
    (∀ s pid sender b s', setActive s pid sender b = .ok s' →
        s' = { s with products := updFn s.products pid { s.products pid with active := b } }) := by
  refine ⟨?_, ?_, ?_, ?_⟩
  · intro s pid sender b h
    simp [setActive, h]
  · intro s pid sender b h1 h2
    simp [setActive, h1, h2]
  · intro s pid sender b h1 h2 h3
    simp [setActive, h1, h2, h3]
  · intro s pid sender b s' h
    simp only [setActive] at h
    by_cases h1 : (s.products pid).id = 0
    · simp [h1] at h
    by_cases h2 : (s.products pid).seller ≠ sender
    · simp [h1, h2] at h
    by_cases h3 : (s.products pid).active = b
    · simp [h1, h2, h3] at h
    rw [if_neg h1, if_neg h2, if_neg h3] at h
    injection h with h
    exact h.symm

/-- C9: a successful platform-fee withdrawal requires the caller to hold
the transferable OpenZeppelin `Ownable` owner role, while the funds always
go to the fixed `Martowner` address recorded at construction (both roles
start at the deployer); `transferOwnership` moves only the `Ownable` role
and no contract transition ever changes `Martowner`.  Hence after an
ownership transfer the new owner can trigger the withdrawal while the
proceeds still go to the original deployer: the authorization check is
`owner`-based only, and the declared `onlyMartOwner` modifier plays no
part in it. -/
theorem withdrawPlatformFees_owner_vs_martOwner :
    (∀ s sender f s', withdrawPlatformFees s sender f = .ok s' →
        sender = s.owner ∧
        s'.outTransfers = s.outTransfers ++ [(s.martOwner, s.platformBalance)] ∧
        s'.platformBalance = 0) ∧
    (∀ deployer tokenAddr feeBps,
        (initState deployer tokenAddr feeBps).owner = deployer ∧
        (initState deployer tokenAddr feeBps).martOwner = deployer) ∧
    (∀ s s', Step s s' → s'.martOwner = s.martOwner) ∧
    (∀ s newOwner s', transferOwnership s s.owner newOwner = .ok s' →
        s'.owner = newOwner ∧ s'.martOwner = s.martOwner) := by
  refine ⟨?_, fun _ _ _ => ⟨rfl, rfl⟩, ?_, ?_⟩
  · intro s sender f s' h
    obtain ⟨h1, -, -, hs'⟩ := withdrawPlatformFees_ok h
    subst hs'
    exact ⟨h1, rfl, rfl⟩
  · intro s s' hs
    cases hs with
    | listStep sender c price nm ds newId hE =>
      obtain ⟨-, -, -, -, hs'⟩ := listProduct_ok hE
      subst hs'; rfl
    | purchaseStep sender pid tOk hE =>
      obtain ⟨-, -, -, -, -, hs'⟩ := purchaseProduct_ok hE
      subst hs'; rfl
    | withdrawSellerStep sender tOk hE =>
      obtain ⟨-, -, hs'⟩ := withdrawSellerBalance_ok hE
      subst hs'; rfl
    | withdrawFeesStep sender tOk hE =>
      obtain ⟨-, -, -, hs'⟩ := withdrawPlatformFees_ok hE
      subst hs'; rfl
    | ownershipStep sender newOwner hE =>
      obtain ⟨-, -, hs'⟩ := transferOwnership_ok hE
      subst hs'; rfl
  · intro s newOwner s' h
    obtain ⟨-, -, hs'⟩ := transferOwnership_ok h
    subst hs'
    exact ⟨rfl, rfl⟩

/-- C10: in every reachable state and for every product id, the per-product
purchaser history list contains each buyer at most once (it is
duplicate-free) and its length equals that product's `salesCount`. -/
theorem purchasers_nodup_and_count (s : State) (hs : Reachable s)
    (pid : Nat) :
    (s.productPurchasers pid).Nodup ∧
    (s.productPurchasers pid).length = (s.products pid).salesCount :=
  ⟨(reachable_inv hs).nodup pid, (reachable_inv hs).len_eq pid⟩

theorem exS0_reachable : Reachable exS0 :=
  Reachable.init 1 7 1000 (by decide) (by decide)

theorem exS1_reachable : Reachable exS1 :=
  Reachable.step exS0_reachable (Step.listStep 2 "cidA" 1000 "prodA" "descA" 1 rfl)

theorem exS2_reachable : Reachable exS2 :=
  Reachable.step exS1_reachable (Step.purchaseStep 3 1 true rfl)

/-- Witness for C1: the fee-split theorem evaluated on the concrete
10%-fee scenario (price 1000: fee 100, seller credit 900). -/
theorem purchase_fee_split_witness :
    Reachable exS1 ∧
    (exS2.platformBalance
        = exS1.platformBalance
            + (exS1.products 1).price * exS1.platformFeePercentage / 10000 ∧
     (exS2.sellers (exS1.products 1).seller).balance
        = (exS1.sellers (exS1.products 1).seller).balance
            + ((exS1.products 1).price
                - (exS1.products 1).price * exS1.platformFeePercentage / 10000) ∧
     ((exS1.products 1).price
        - (exS1.products 1).price * exS1.platformFeePercentage / 10000)
        + (exS1.products 1).price * exS1.platformFeePercentage / 10000
      = (exS1.products 1).price) :=
  ⟨exS1_reachable, purchase_fee_split exS1 exS1_reachable 3 1 true exS2 rfl⟩

/-- Witness for C3: buyer 3 already owns product 1 in `exS2`, so a second
purchase attempt reverts with the already-owned error and changes nothing. -/
theorem repurchase_denied_witness :
    purchaseProduct exS2 3 1 true = .error .alreadyPurchased ∧
    resultState exS2 (purchaseProduct exS2 3 1 true) = exS2 :=
  repurchase_denied exS1 3 1 true exS2 rfl true

/-- Witness for C4: buyer 3's purchase fact for product 1 survives the
seller's withdrawal step from `exS2` to `exS3`. -/
theorem hasPurchased_lifecycle_witness : exS3.hasPurchased 3 1 = true :=
  hasPurchased_lifecycle.2.1 exS2 exS3
    (Relation.ReflTransGen.single (Step.withdrawSellerStep 2 (fun _ => true) rfl))
    3 1 rfl

/-- Witness for C5: after seller 2's successful withdrawal the balance is
zero and an immediately repeated withdrawal reverts. -/
theorem withdrawSeller_spec_witness :
    (exS3.sellers 2).balance = 0 ∧
    withdrawSellerBalance exS3 2 (fun _ => true) = .error .noBalanceToWithdraw :=
  withdrawSeller_spec.2.2.2 exS2 2 (fun _ => true) exS3 (fun _ => true) rfl

/-- Witness for C6 (amended): the concrete purchase grows the treasury by
the computed fee and never shrinks it. -/
theorem platformFees_monotonic_witness :
    exS2.platformBalance
        = exS1.platformBalance
            + (exS1.products 1).price * exS1.platformFeePercentage / 10000 ∧
    exS1.platformBalance ≤ exS2.platformBalance :=
  platformFees_monotonic.1 exS1 3 1 true exS2 rfl

theorem zfS1_reachable : Reachable zfS1 :=
  Reachable.step (Reachable.init 1 7 0 (by decide) (by decide))
    (Step.listStep 2 "c" 5 "n" "" 1 rfl)

/-- Counterexample to C6 as stated: in the reachable zero-fee state `zfS1`
the purchase of product 1 (price 5) by account 3 succeeds, yet the treasury
scalar does not strictly increase — the computed fee `5 * 0 / 10000` is 0,
so `platformBalance` stays exactly equal. -/
theorem platformFees_strict_increase_cex :
    Reachable zfS1 ∧
    purchaseProduct zfS1 3 1 true = .ok zfS2 ∧
    zfS2.platformBalance = zfS1.platformBalance :=
  ⟨zfS1_reachable, rfl, rfl⟩

/-- Witness for C7: the first listing in the fresh deployment gets id 1,
stored active with zero sales and appended to seller 2's list. -/
theorem listProduct_spec_witness :
    1 = exS0.productCounter + 1 ∧
    exS1.productCounter = 1 ∧
    exS0.products 1 = defaultProduct ∧
    exS1.products 1 =
      { id := 1, seller := 2, cid := "cidA", price := 1000, name := "prodA",
        description := "descA", active := true, salesCount := 0 } ∧
    (exS1.sellers 2).productIds = (exS0.sellers 2).productIds ++ [1] :=
  listProduct_spec.2.2.2.2 exS0 2 "cidA" 1000 "prodA" "descA" exS1 1
    exS0_reachable rfl

/-- Witness for C8: seller 2 deactivating product 1 in `exS2` yields the
same state with only that product's `active` flag flipped. -/
theorem setActive_spec_witness :
    exS2d = { exS2 with products := updFn exS2.products 1 { exS2.products 1 with active := false } } :=
  setActive_spec.2.2.2 exS2 1 2 false exS2d rfl

/-- Witness for C9: after the deployer hands the `Ownable` role to account
4, the new owner's fee withdrawal succeeds and the 100-unit transfer still
goes to `Martowner` (the original deployer, account 1). -/
theorem withdrawPlatformFees_owner_vs_martOwner_witness :
    exO3.owner = 4 ∧ exO3.martOwner = 1 ∧
    (4 = exO3.owner ∧
     exO4.outTransfers = exO3.outTransfers ++ [(exO3.martOwner, exO3.platformBalance)] ∧
     exO4.platformBalance = 0) :=
  ⟨rfl, rfl,
    withdrawPlatformFees_owner_vs_martOwner.1 exO3 4 (fun _ => true) exO4 rfl⟩

/-- Witness for C10: in `exS2` product 1's purchaser history is `[3]`,
duplicate-free with length equal to the sales counter 1. -/
theorem purchasers_nodup_and_count_witness :
    (exS2.productPurchasers 1).Nodup ∧
    (exS2.productPurchasers 1).length = (exS2.products 1).salesCount :=
  purchasers_nodup_and_count exS2 exS2_reachable 1

end MneeMart
